import Mathlib

/-!
Shallow embedding of the flight-physics and spatial-query core of
`src/src/utils/physics.ts`.

The source file contains two revisions of the module.  The flight model
embedded here (`updateDronePhysics` and its helper definitions) is the later
revision (the one with `inertia`/`stabilization`/`tilt`); the spatial-query
functions of the earlier revision are embedded separately with the suffix
`Early`, so that the two copies can be compared.

JavaScript numbers are modelled as real numbers; `Math.sqrt`, `Math.sin`,
`Math.cos` and `Math.pow` are modelled by `Real.sqrt`, `Real.sin`,
`Real.cos` and real exponentiation (`Real.rpow`), and `Math.sign` by
`jsSign`.  The in-place mutation of the caller's `physics.rotation.z`
performed by the steering-lock branch is modelled by `effectiveRotation`
(the rotation record actually used by the rest of the step) and
`inputAfterUpdate` (the value of the caller's state object after the call).
-/

open scoped Classical

noncomputable section

/-- A `{x, y, z}` record of JavaScript numbers. -/
structure Vec3 where
  x : ℝ
  y : ℝ
  z : ℝ

/-- The `DronePhysics` interface of the later revision of the source. -/
structure DronePhysics where
  position : Vec3
  rotation : Vec3
  velocity : Vec3
  acceleration : Vec3
  mass : ℝ
  drag : ℝ
  maxSpeed : ℝ
  maxAcceleration : ℝ
  gravity : ℝ
  steeringLock : ℝ
  inertia : ℝ
  stabilization : ℝ
  tilt : ℝ

/-- The control vector passed to `updateDronePhysics`; `steeringLock` is an
optional field (`steeringLock?: number`). -/
structure Controls where
  throttle : ℝ
  pitch : ℝ
  yaw : ℝ
  roll : ℝ
  steeringLock : Option ℝ

/-- The power-up flags passed to `updateDronePhysics`. -/
structure PowerUps where
  speedBoost : Bool

/-- An obstacle snapshot: `{ position, radius }`. -/
structure Obstacle where
  position : Vec3
  radius : ℝ

/-- A coin snapshot: `{ position, radius, collected }`. -/
structure Coin where
  position : Vec3
  radius : ℝ
  collected : Bool

/-- `createDronePhysics` of the later revision. -/
def createDronePhysics : DronePhysics :=
  { position := ⟨0, 30, 0⟩
    rotation := ⟨0, 0, 0⟩
    velocity := ⟨0, 0, 0⟩
    acceleration := ⟨0, 0, 0⟩
    mass := 1
    drag := 0.2
    maxSpeed := 60
    maxAcceleration := 15
    gravity := 9.8
    steeringLock := 0
    inertia := 0.85
    stabilization := 0.03
    tilt := 0 }

/-- `Math.sign` on real numbers. -/
def jsSign (x : ℝ) : ℝ := if 0 < x then 1 else if x < 0 then -1 else 0

/-- `actualMaxSpeed = powerUps.speedBoost ? maxSpeed * 2.2 : maxSpeed`. -/
def actualMaxSpeed (maxSpeed : ℝ) (speedBoost : Bool) : ℝ :=
  if speedBoost then maxSpeed * 2.2 else maxSpeed

/-- `thrustMultiplier = powerUps.speedBoost ? 1.5 : 1.0`. -/
def thrustMultiplier (speedBoost : Bool) : ℝ :=
  if speedBoost then 1.5 else 1.0

/-- `newSteeringLock`: the steering lock taken from the controls when
provided (`controls.steeringLock !== undefined`), else from the state. -/
def newSteeringLock (physics : DronePhysics) (controls : Controls) : ℝ :=
  controls.steeringLock.getD physics.steeringLock

/-- The rotation record used by the rest of the step.  When the effective
steering lock is nonzero the source executes `rotation.z = newSteeringLock *
0.18`, mutating the caller's record in place before `newRotation` is
computed. -/
def effectiveRotation (physics : DronePhysics) (controls : Controls) : Vec3 :=
  if newSteeringLock physics controls ≠ 0 then
    { physics.rotation with z := newSteeringLock physics controls * 0.18 }
  else physics.rotation

/-- The value of the caller's `physics` object after `updateDronePhysics`
returns: identical to the input except for the steering-lock mutation of
`rotation.z`. -/
def inputAfterUpdate (physics : DronePhysics) (controls : Controls) : DronePhysics :=
  { physics with rotation := effectiveRotation physics controls }

/-- `effectiveYaw`: overridden by the lock direction times a strength that
depends on whether `|controls.yaw| > 2.0` (Q/E versus arrow keys). -/
def effectiveYaw (physics : DronePhysics) (controls : Controls) : ℝ :=
  if newSteeringLock physics controls ≠ 0 then
    newSteeringLock physics controls * (if |controls.yaw| > 2.0 then 2.4 else 1.4)
  else controls.yaw

/-- The rotation integration and auto-stabilization block of the step:
`rotationSpeed = 3.8 * deltaTime`, per-axis multipliers 1.9 / `yawMultiplier`
/ 1.6, with each axis overwritten by the stabilization decay when its raw
input magnitude is below 0.1 (for yaw additionally requiring the lock to be
0, for roll `|newSteeringLock| < 0.1`). -/
def newRotation (physics : DronePhysics) (controls : Controls) (deltaTime : ℝ) : Vec3 :=
  let rotation := effectiveRotation physics controls
  let lock := newSteeringLock physics controls
  let rotationSpeed := 3.8 * deltaTime
  let effYaw := effectiveYaw physics controls
  let yawMultiplier := if |effYaw| > 2.0 then 2.4 else 1.4
  let base : Vec3 :=
    ⟨rotation.x + controls.pitch * rotationSpeed * 1.9,
     rotation.y + effYaw * rotationSpeed * yawMultiplier,
     rotation.z + controls.roll * rotationSpeed * 1.6⟩
  { x := if |controls.pitch| < 0.1 then rotation.x * (1 - physics.stabilization) else base.x
    y := if lock = 0 ∧ |controls.yaw| < 0.1 then
           rotation.y * (1 - physics.stabilization * 0.5)
         else base.y
    z := if |lock| < 0.1 ∧ |controls.roll| < 0.1 then
           rotation.z * (1 - physics.stabilization)
         else base.z }

/-- `throttleForce`: computed by the source (non-linear throttle response
times `maxAcceleration * 1.3 * thrustMultiplier`) but never read again by
any later statement of the step. -/
def throttleForce (physics : DronePhysics) (controls : Controls) (powerUps : PowerUps) : ℝ :=
  (max 0 controls.throttle) ^ (1.2 : ℝ) *
    physics.maxAcceleration * 1.3 * thrustMultiplier powerUps.speedBoost

/-- `forwardForce = pitchEffect * maxAcceleration * 1.8` with
`pitchEffect = -sin(rx) * (1 + |sin(rx)| * 0.3)`. -/
def forwardForce (physics : DronePhysics) (controls : Controls) (deltaTime : ℝ) : ℝ :=
  let rx := (newRotation physics controls deltaTime).x
  (-Real.sin rx * (1 + |Real.sin rx| * 0.3)) * physics.maxAcceleration * 1.8

/-- `horizontalForce`: banking force `sin(rz) * maxAcceleration * 1.1` plus,
when the lock is active, a turn assist scaled by the horizontal speed. -/
def horizontalForce (physics : DronePhysics) (controls : Controls) (deltaTime : ℝ) : ℝ :=
  let base := Real.sin (newRotation physics controls deltaTime).z * physics.maxAcceleration * 1.1
  let lock := newSteeringLock physics controls
  if lock ≠ 0 then
    let speedFactor :=
      min 1.0 (Real.sqrt (physics.velocity.x * physics.velocity.x +
        physics.velocity.z * physics.velocity.z) / 20)
    base + lock * 2.8 * |forwardForce physics controls deltaTime| * 0.13 * (1 + speedFactor)
  else base

/-- The force record `{ forwardX + horizontalForce, directVerticalControl -
gravity, forwardZ }`, with `directVerticalControl = pow(throttle, 1.15) *
maxAcceleration * 2.0` (`Math.pow` modelled by real exponentiation). -/
def forces (physics : DronePhysics) (controls : Controls) (deltaTime : ℝ) : Vec3 :=
  let nr := newRotation physics controls deltaTime
  let ff := forwardForce physics controls deltaTime
  ⟨Real.sin nr.y * ff + horizontalForce physics controls deltaTime,
   controls.throttle ^ (1.15 : ℝ) * physics.maxAcceleration * 2.0 - physics.gravity,
   Real.cos nr.y * ff⟩

/-- The inertia blend `acceleration * inertia + (forces / mass) * (1 - inertia)`. -/
def blendedAcceleration (physics : DronePhysics) (controls : Controls) (deltaTime : ℝ) : Vec3 :=
  let f := forces physics controls deltaTime
  let na : Vec3 := ⟨f.x / physics.mass, f.y / physics.mass, f.z / physics.mass⟩
  ⟨physics.acceleration.x * physics.inertia + na.x * (1 - physics.inertia),
   physics.acceleration.y * physics.inertia + na.y * (1 - physics.inertia),
   physics.acceleration.z * physics.inertia + na.z * (1 - physics.inertia)⟩

/-- `vx*vx + vy*vy + vz*vz`, as computed for drag and for the speed limit. -/
def speedSquaredOf (v : Vec3) : ℝ := v.x * v.x + v.y * v.y + v.z * v.z

/-- The combined linear-plus-quadratic drag factor, floored at 0:
`max(0, 1 - drag*dt - (drag * 0.02 * speedSquared) * dt)`. -/
def dragFactor (drag speedSquared deltaTime : ℝ) : ℝ :=
  max 0 (1 - drag * deltaTime - drag * 0.02 * speedSquared * deltaTime)

/-- The velocity after acceleration and drag, before the speed limiter:
`(velocity + blendedAcceleration * dt) * dragFactor` componentwise. -/
def rawVelocity (physics : DronePhysics) (controls : Controls) (deltaTime : ℝ) : Vec3 :=
  let ba := blendedAcceleration physics controls deltaTime
  let df := dragFactor physics.drag (speedSquaredOf physics.velocity) deltaTime
  ⟨(physics.velocity.x + ba.x * deltaTime) * df,
   (physics.velocity.y + ba.y * deltaTime) * df,
   (physics.velocity.z + ba.z * deltaTime) * df⟩

/-- The progressive speed limiter: when `speed > actualMaxSpeed * 0.8`,
scale the velocity by `0.95 + 0.05 * min(1, actualMaxSpeed / speed)`. -/
def limitedVelocity (physics : DronePhysics) (controls : Controls)
    (powerUps : PowerUps) (deltaTime : ℝ) : Vec3 :=
  let nv := rawVelocity physics controls deltaTime
  let speed := Real.sqrt (speedSquaredOf nv)
  let ams := actualMaxSpeed physics.maxSpeed powerUps.speedBoost
  if speed > ams * 0.8 then
    let overSpeedFactor := min 1.0 (ams / speed)
    let limitFactor := 0.95 + 0.05 * overSpeedFactor
    ⟨nv.x * limitFactor, nv.y * limitFactor, nv.z * limitFactor⟩
  else nv

/-- `newPosition = position + newVelocity * deltaTime`. -/
def rawPosition (physics : DronePhysics) (controls : Controls)
    (powerUps : PowerUps) (deltaTime : ℝ) : Vec3 :=
  let nv := limitedVelocity physics controls powerUps deltaTime
  ⟨physics.position.x + nv.x * deltaTime,
   physics.position.y + nv.y * deltaTime,
   physics.position.z + nv.z * deltaTime⟩

/-- Ground collision: clamp to the minimum height 2.5, bounce with
coefficient 0.4 when the impact velocity is below -2 (else zero it), and
apply ground friction 0.9 to the horizontal velocity. -/
def groundCollision (p v : Vec3) : Vec3 × Vec3 :=
  if p.y < 2.5 then
    (⟨p.x, 2.5, p.z⟩,
     ⟨v.x * 0.9, if v.y < -2 then |v.y| * 0.4 else 0, v.z * 0.9⟩)
  else (p, v)

/-- X-axis world boundary: progressive push-back inside the outer 5% band,
hard clamp at 500 with velocity reversal `* -0.3`. -/
def boundaryX (deltaTime : ℝ) (p v : Vec3) : Vec3 × Vec3 :=
  if |p.x| > 500 * 0.95 then
    let overFactor := (|p.x| - 500 * 0.95) / (500 * 0.05)
    let boundaryResponse := overFactor * 0.05 * (-jsSign p.x)
    let vx := v.x + boundaryResponse * 100 * deltaTime
    if |p.x| > 500 then
      (⟨jsSign p.x * 500, p.y, p.z⟩, ⟨vx * (-0.3), v.y, v.z⟩)
    else (p, ⟨vx, v.y, v.z⟩)
  else (p, v)

/-- Z-axis world boundary, identical to the X-axis one. -/
def boundaryZ (deltaTime : ℝ) (p v : Vec3) : Vec3 × Vec3 :=
  if |p.z| > 500 * 0.95 then
    let overFactor := (|p.z| - 500 * 0.95) / (500 * 0.05)
    let boundaryResponse := overFactor * 0.05 * (-jsSign p.z)
    let vz := v.z + boundaryResponse * 100 * deltaTime
    if |p.z| > 500 then
      (⟨p.x, p.y, jsSign p.z * 500⟩, ⟨v.x, v.y, vz * (-0.3)⟩)
    else (p, ⟨v.x, v.y, vz⟩)
  else (p, v)

/-- Altitude ceiling: progressive downward counter-acceleration when above
85% of 150, hard clamp at 150 with `vy = min(0, vy)`. -/
def ceilingLimit (deltaTime : ℝ) (p v : Vec3) : Vec3 × Vec3 :=
  let ceilingApproach := max 0 ((p.y - 150 * 0.85) / (150 * 0.15))
  if ceilingApproach > 0 then
    let vy := v.y - ceilingApproach * 9.8 * deltaTime * 2
    if p.y > 150 then (⟨p.x, 150, p.z⟩, ⟨v.x, min 0 vy, v.z⟩)
    else (p, ⟨v.x, vy, v.z⟩)
  else (p, v)

/-- The boundary-enforcement block of the step, in source order: ground,
X boundary, Z boundary, ceiling. -/
def enforceBounds (deltaTime : ℝ) (p v : Vec3) : Vec3 × Vec3 :=
  let pv1 := groundCollision p v
  let pv2 := boundaryX deltaTime pv1.1 pv1.2
  let pv3 := boundaryZ deltaTime pv2.1 pv2.2
  ceilingLimit deltaTime pv3.1 pv3.2

/-- `tiltAmount = sqrt(rx^2 + rz^2) * Math.sign(rz || 0.01)`. -/
def tiltAmount (physics : DronePhysics) (controls : Controls) (deltaTime : ℝ) : ℝ :=
  let nr := newRotation physics controls deltaTime
  Real.sqrt (nr.x * nr.x + nr.z * nr.z) * jsSign (if nr.z = 0 then 0.01 else nr.z)

/-- `updateDronePhysics` of the later revision of the source, assembled from
the blocks above: the returned record is the input with position, rotation,
velocity, acceleration, steeringLock and tilt replaced. -/
def updateDronePhysics (physics : DronePhysics) (controls : Controls)
    (powerUps : PowerUps) (deltaTime : ℝ) : DronePhysics :=
  { physics with
    position :=
      (enforceBounds deltaTime (rawPosition physics controls powerUps deltaTime)
        (limitedVelocity physics controls powerUps deltaTime)).1
    rotation := newRotation physics controls deltaTime
    velocity :=
      (enforceBounds deltaTime (rawPosition physics controls powerUps deltaTime)
        (limitedVelocity physics controls powerUps deltaTime)).2
    acceleration := blendedAcceleration physics controls deltaTime
    steeringLock := newSteeringLock physics controls
    tilt := tiltAmount physics controls deltaTime }

/-- Euclidean distance between two `{x, y, z}` records, as computed by the
source (`sqrt(dx*dx + dy*dy + dz*dz)`). -/
def dist3 (a b : Vec3) : ℝ :=
  Real.sqrt ((a.x - b.x) * (a.x - b.x) + (a.y - b.y) * (a.y - b.y) +
    (a.z - b.z) * (a.z - b.z))

/-- `checkCollision` (later revision): linear scan returning true on the
first obstacle with `distance < droneRadius + obstacle.radius * 0.85`. -/
def checkCollision (dronePosition : Vec3) (droneRadius : ℝ) : List Obstacle → Prop
  | [] => False
  | obstacle :: rest =>
      dist3 dronePosition obstacle.position < droneRadius + obstacle.radius * 0.85 ∨
        checkCollision dronePosition droneRadius rest

/-- The per-coin body of the `coins.forEach` loop of `checkCoinCollection`
(later revision): skip collected coins; pull the coin 0.6 of the way toward
the drone when the magnet is active and the (pre-pull) distance is within
`magnetRadius`; report collection when the pre-pull distance is below
`baseRadius + coin.radius * 1.7`. -/
def coinStep (dronePosition : Vec3) (baseRadius magnetRadius : ℝ)
    (hasMagnet : Bool) (coin : Coin) : Coin × Bool :=
  if coin.collected then (coin, false)
  else
    let dx := dronePosition.x - coin.position.x
    let dy := dronePosition.y - coin.position.y
    let dz := dronePosition.z - coin.position.z
    let distance := Real.sqrt (dx * dx + dy * dy + dz * dz)
    let pulled : Coin :=
      if hasMagnet = true ∧ distance < magnetRadius then
        { coin with position :=
            ⟨coin.position.x + dx * 0.6, coin.position.y + dy * 0.6,
             coin.position.z + dz * 0.6⟩ }
      else coin
    (pulled, if distance < baseRadius + coin.radius * 1.7 then true else false)

/-- The indexed traversal of the coin list, accumulating collected indices
in order and the (possibly magnet-pulled) coins. -/
def checkCoinCollectionGo (dronePosition : Vec3) (baseRadius magnetRadius : ℝ)
    (hasMagnet : Bool) : List Coin → ℕ → List ℕ × List Coin
  | [], _ => ([], [])
  | coin :: rest, index =>
      let st := coinStep dronePosition baseRadius magnetRadius hasMagnet coin
      let tail := checkCoinCollectionGo dronePosition baseRadius magnetRadius hasMagnet
        rest (index + 1)
      (if st.2 then index :: tail.1 else tail.1, st.1 :: tail.2)

/-- `checkCoinCollection` (later revision): `baseRadius = droneRadius * 2.0`,
`magnetRadius = hasMagnet ? baseRadius * 12 : baseRadius`.  The first
component is the returned index list; the second is the coin list after the
in-place magnet mutations. -/
def checkCoinCollection (dronePosition : Vec3) (droneRadius : ℝ)
    (coins : List Coin) (hasMagnet : Bool) : List ℕ × List Coin :=
  let baseRadius := droneRadius * 2.0
  let magnetRadius := if hasMagnet then baseRadius * 12 else baseRadius
  checkCoinCollectionGo dronePosition baseRadius magnetRadius hasMagnet coins 0

/-- `checkCollision` as it appears in the earlier revision of the source
(lines 216-239), embedded independently for the equivalence claim. -/
def checkCollisionEarly (dronePosition : Vec3) (droneRadius : ℝ) : List Obstacle → Prop
  | [] => False
  | obstacle :: rest =>
      dist3 dronePosition obstacle.position < droneRadius + obstacle.radius * 0.85 ∨
        checkCollisionEarly dronePosition droneRadius rest

/-- The per-coin loop body of the earlier revision's `checkCoinCollection`
(lines 242-281), embedded independently. -/
def coinStepEarly (dronePosition : Vec3) (baseRadius magnetRadius : ℝ)
    (hasMagnet : Bool) (coin : Coin) : Coin × Bool :=
  if coin.collected then (coin, false)
  else
    let dx := dronePosition.x - coin.position.x
    let dy := dronePosition.y - coin.position.y
    let dz := dronePosition.z - coin.position.z
    let distance := Real.sqrt (dx * dx + dy * dy + dz * dz)
    let pulled : Coin :=
      if hasMagnet = true ∧ distance < magnetRadius then
        { coin with position :=
            ⟨coin.position.x + dx * 0.6, coin.position.y + dy * 0.6,
             coin.position.z + dz * 0.6⟩ }
      else coin
    (pulled, if distance < baseRadius + coin.radius * 1.7 then true else false)

/-- The indexed traversal of the earlier revision's `checkCoinCollection`. -/
def checkCoinCollectionGoEarly (dronePosition : Vec3) (baseRadius magnetRadius : ℝ)
    (hasMagnet : Bool) : List Coin → ℕ → List ℕ × List Coin
  | [], _ => ([], [])
  | coin :: rest, index =>
      let st := coinStepEarly dronePosition baseRadius magnetRadius hasMagnet coin
      let tail := checkCoinCollectionGoEarly dronePosition baseRadius magnetRadius hasMagnet
        rest (index + 1)
      (if st.2 then index :: tail.1 else tail.1, st.1 :: tail.2)

/-- `checkCoinCollection` of the earlier revision (lines 242-281): same
constants `2.0`, `12`, `0.6`, `1.7` as the later revision. -/
def checkCoinCollectionEarly (dronePosition : Vec3) (droneRadius : ℝ)
    (coins : List Coin) (hasMagnet : Bool) : List ℕ × List Coin :=
  let baseRadius := droneRadius * 2.0
  let magnetRadius := if hasMagnet then baseRadius * 12 else baseRadius
  checkCoinCollectionGoEarly dronePosition baseRadius magnetRadius hasMagnet coins 0

/-- `zeroControls`: the all-centered control vector with no lock request. -/
def zeroControls : Controls := ⟨0, 0, 0, 0, none⟩

/-- `lockControls`: centered sticks with a right steering-lock request. -/
def lockControls : Controls := ⟨0, 0, 0, 0, some 1⟩

/-- The initial state given a large x-velocity, used as a concrete input. -/
def droneFast : DronePhysics := { createDronePhysics with velocity := ⟨1000, 0, 0⟩ }

/-- The initial state given a yaw rotation of 1, used as a concrete input. -/
def droneTilted : DronePhysics := { createDronePhysics with rotation := ⟨0, 1, 0⟩ }

/-! ### Helper lemmas -/

lemma checkCollision_iff (p : Vec3) (r : ℝ) (obstacles : List Obstacle) :
    checkCollision p r obstacles ↔
      ∃ o ∈ obstacles, dist3 p o.position < r + o.radius * 0.85 := by
  induction obstacles with
  | nil => simp [checkCollision]
  | cons a rest ih => simp [checkCollision, ih]

lemma checkCollisionEarly_iff_checkCollision (p : Vec3) (r : ℝ)
    (obstacles : List Obstacle) :
    checkCollisionEarly p r obstacles ↔ checkCollision p r obstacles := by
  induction obstacles with
  | nil => simp [checkCollision, checkCollisionEarly]
  | cons a rest ih => simp [checkCollision, checkCollisionEarly, ih]

lemma coinStepEarly_eq_coinStep : coinStepEarly = coinStep := rfl

lemma checkCoinCollectionGoEarly_eq (p : Vec3) (b m : ℝ) (h : Bool) :
    ∀ (coins : List Coin) (k : ℕ),
      checkCoinCollectionGoEarly p b m h coins k =
        checkCoinCollectionGo p b m h coins k := by
  intro coins
  induction coins with
  | nil => intro k; rfl
  | cons a rest ih =>
      intro k
      simp [checkCoinCollectionGo, checkCoinCollectionGoEarly, ih,
        coinStepEarly_eq_coinStep]

lemma checkCoinCollectionGo_snd (p : Vec3) (b m : ℝ) (h : Bool) :
    ∀ (coins : List Coin) (k : ℕ),
      (checkCoinCollectionGo p b m h coins k).2 =
        coins.map fun c => (coinStep p b m h c).1 := by
  intro coins
  induction coins with
  | nil => intro k; rfl
  | cons a rest ih =>
      intro k
      simp only [checkCoinCollectionGo, List.map_cons, ih]

lemma checkCoinCollectionGo_mem_ge (p : Vec3) (b m : ℝ) (h : Bool) :
    ∀ (coins : List Coin) (k j : ℕ),
      j ∈ (checkCoinCollectionGo p b m h coins k).1 → k ≤ j := by
  intro coins
  induction coins with
  | nil =>
      intro k j hj
      simp only [checkCoinCollectionGo, List.not_mem_nil] at hj
  | cons a rest ih =>
      intro k j hj
      simp only [checkCoinCollectionGo] at hj
      by_cases hc : (coinStep p b m h a).2 = true
      · rw [if_pos hc] at hj
        rcases List.mem_cons.mp hj with rfl | hj2
        · exact le_rfl
        · exact le_trans (Nat.le_succ k) (ih (k + 1) j hj2)
      · rw [if_neg hc] at hj
        exact le_trans (Nat.le_succ k) (ih (k + 1) j hj)

lemma coinStep_collected (p : Vec3) (b m : ℝ) (h : Bool) (coin : Coin)
    (hcol : coin.collected = true) : coinStep p b m h coin = (coin, false) := by
  unfold coinStep
  rw [if_pos hcol]

lemma checkCoinCollectionGo_collected_not_mem (p : Vec3) (b m : ℝ) (h : Bool) :
    ∀ (coins : List Coin) (k i : ℕ) (coin : Coin), coins[i]? = some coin →
      coin.collected = true → (k + i) ∉ (checkCoinCollectionGo p b m h coins k).1 := by
  intro coins
  induction coins with
  | nil =>
      intro k i coin hget
      simp at hget
  | cons a rest ih =>
      intro k i coin hget hcol hmem
      simp only [checkCoinCollectionGo] at hmem
      cases i with
      | zero =>
          simp only [List.getElem?_cons_zero, Option.some.injEq] at hget
          rw [coinStep_collected p b m h a (hget ▸ hcol)] at hmem
          simp only [Bool.false_eq_true, if_false] at hmem
          have := checkCoinCollectionGo_mem_ge p b m h rest (k + 1) (k + 0) hmem
          omega
      | succ n =>
          simp only [List.getElem?_cons_succ] at hget
          by_cases hc : (coinStep p b m h a).2 = true
          · rw [if_pos hc] at hmem
            rcases List.mem_cons.mp hmem with heq | hmem2
            · omega
            · have : (k + 1) + n ∉ (checkCoinCollectionGo p b m h rest (k + 1)).1 :=
                ih (k + 1) n coin hget hcol
              have harith : k + (n + 1) = (k + 1) + n := by omega
              rw [harith] at hmem2
              exact this hmem2
          · rw [if_neg hc] at hmem
            have : (k + 1) + n ∉ (checkCoinCollectionGo p b m h rest (k + 1)).1 :=
              ih (k + 1) n coin hget hcol
            have harith : k + (n + 1) = (k + 1) + n := by omega
            rw [harith] at hmem
            exact this hmem

lemma coinStep_flag (p : Vec3) (b m : ℝ) (h : Bool) (coin : Coin)
    (hcol : coin.collected = false) :
    (coinStep p b m h coin).2 =
      if dist3 p coin.position < b + coin.radius * 1.7 then true else false := by
  unfold coinStep
  rw [if_neg (by simp [hcol])]
  rfl

lemma coinStep_magnet_pull (p : Vec3) (b m : ℝ) (coin : Coin)
    (hcol : coin.collected = false)
    (hlt : dist3 p coin.position < m) :
    (coinStep p b m true coin).1 =
      { coin with position :=
          ⟨coin.position.x + (p.x - coin.position.x) * 0.6,
           coin.position.y + (p.y - coin.position.y) * 0.6,
           coin.position.z + (p.z - coin.position.z) * 0.6⟩ } := by
  unfold coinStep
  rw [if_neg (by simp [hcol])]
  show (if (true = true ∧ dist3 p coin.position < m) then _ else coin, _).1 = _
  rw [if_pos ⟨rfl, hlt⟩]

lemma dist3_pull (p c : Vec3) :
    dist3 p ⟨c.x + (p.x - c.x) * 0.6, c.y + (p.y - c.y) * 0.6,
      c.z + (p.z - c.z) * 0.6⟩ = 0.4 * dist3 p c := by
  show Real.sqrt ((p.x - (c.x + (p.x - c.x) * 0.6)) * (p.x - (c.x + (p.x - c.x) * 0.6)) +
      (p.y - (c.y + (p.y - c.y) * 0.6)) * (p.y - (c.y + (p.y - c.y) * 0.6)) +
      (p.z - (c.z + (p.z - c.z) * 0.6)) * (p.z - (c.z + (p.z - c.z) * 0.6))) =
    0.4 * dist3 p c
  have harg : (p.x - (c.x + (p.x - c.x) * 0.6)) * (p.x - (c.x + (p.x - c.x) * 0.6)) +
      (p.y - (c.y + (p.y - c.y) * 0.6)) * (p.y - (c.y + (p.y - c.y) * 0.6)) +
      (p.z - (c.z + (p.z - c.z) * 0.6)) * (p.z - (c.z + (p.z - c.z) * 0.6)) =
      0.4 ^ 2 * ((p.x - c.x) * (p.x - c.x) + (p.y - c.y) * (p.y - c.y) +
        (p.z - c.z) * (p.z - c.z)) := by ring
  rw [harg, Real.sqrt_mul (by positivity) _, Real.sqrt_sq (by norm_num)]
  rfl

lemma checkCoinCollection_single_ite (dronePosition coinPosition : Vec3) :
    (checkCoinCollection dronePosition 0.8 [⟨coinPosition, 0.8, false⟩] false).1 =
      if dist3 dronePosition coinPosition < 2.96 then [0] else [] := by
  have hflag := coinStep_flag dronePosition (0.8 * 2.0) (0.8 * 2.0) false
    ⟨coinPosition, 0.8, false⟩ rfl
  have hthresh : (0.8 : ℝ) * 2.0 + (0.8 : ℝ) * 1.7 = 2.96 := by norm_num
  simp only [checkCoinCollection, Bool.false_eq_true, if_false, checkCoinCollectionGo]
  rw [hflag]
  have hred : dist3 dronePosition (⟨coinPosition, 0.8, false⟩ : Coin).position =
      dist3 dronePosition coinPosition := rfl
  have hr2 : ((⟨coinPosition, 0.8, false⟩ : Coin).radius : ℝ) = 0.8 := rfl
  rw [hred, hr2, hthresh]
  by_cases hd : dist3 dronePosition coinPosition < 2.96 <;> simp [hd]

lemma dist3_zero_five : dist3 ⟨0, 0, 0⟩ ⟨5, 0, 0⟩ = 5 := by
  show Real.sqrt (((0 : ℝ) - 5) * ((0 : ℝ) - 5) + ((0 : ℝ) - 0) * ((0 : ℝ) - 0) +
    ((0 : ℝ) - 0) * ((0 : ℝ) - 0)) = 5
  rw [show ((0 : ℝ) - 5) * ((0 : ℝ) - 5) + ((0 : ℝ) - 0) * ((0 : ℝ) - 0) +
    ((0 : ℝ) - 0) * ((0 : ℝ) - 0) = 5 ^ 2 by norm_num]
  exact Real.sqrt_sq (by norm_num)

lemma dist3_cx25 : dist3 ⟨0, 10, 0⟩ ⟨2.5, 10, 0⟩ = 2.5 := by
  show Real.sqrt (((0 : ℝ) - 2.5) * ((0 : ℝ) - 2.5) + ((10 : ℝ) - 10) * ((10 : ℝ) - 10) +
    ((0 : ℝ) - 0) * ((0 : ℝ) - 0)) = 2.5
  rw [show ((0 : ℝ) - 2.5) * ((0 : ℝ) - 2.5) + ((10 : ℝ) - 10) * ((10 : ℝ) - 10) +
    ((0 : ℝ) - 0) * ((0 : ℝ) - 0) = 2.5 ^ 2 by norm_num]
  exact Real.sqrt_sq (by norm_num)

lemma effectiveRotation_of_lock_zero (physics : DronePhysics) (controls : Controls)
    (h : newSteeringLock physics controls = 0) :
    effectiveRotation physics controls = physics.rotation := by
  unfold effectiveRotation
  rw [if_neg (by simp [h])]

lemma jsSign_abs_le_one (x : ℝ) : |jsSign x| ≤ 1 := by
  unfold jsSign
  split_ifs <;> simp

lemma groundCollision_fst_x (p v : Vec3) : (groundCollision p v).1.x = p.x := by
  unfold groundCollision; split_ifs <;> rfl

lemma groundCollision_fst_z (p v : Vec3) : (groundCollision p v).1.z = p.z := by
  unfold groundCollision; split_ifs <;> rfl

lemma groundCollision_fst_y_ge (p v : Vec3) : 2.5 ≤ (groundCollision p v).1.y := by
  unfold groundCollision
  by_cases h : p.y < 2.5
  · rw [if_pos h]
  · rw [if_neg h]
    exact le_of_not_lt h

lemma boundaryX_fst_y (dt : ℝ) (p v : Vec3) : (boundaryX dt p v).1.y = p.y := by
  simp only [boundaryX]; split_ifs <;> rfl

lemma boundaryX_fst_z (dt : ℝ) (p v : Vec3) : (boundaryX dt p v).1.z = p.z := by
  simp only [boundaryX]; split_ifs <;> rfl

lemma boundaryX_fst_abs_x (dt : ℝ) (p v : Vec3) : |(boundaryX dt p v).1.x| ≤ 500 := by
  simp only [boundaryX]
  split_ifs with h1 h2
  · show |jsSign p.x * 500| ≤ 500
    rw [abs_mul]
    have hs := jsSign_abs_le_one p.x
    have h500 : |(500 : ℝ)| = 500 := by norm_num
    rw [h500]
    nlinarith [abs_nonneg (jsSign p.x)]
  · exact le_of_not_lt h2
  · have := le_of_not_lt h1
    calc |p.x| ≤ 500 * 0.95 := this
      _ ≤ 500 := by norm_num

lemma boundaryZ_fst_x (dt : ℝ) (p v : Vec3) : (boundaryZ dt p v).1.x = p.x := by
  simp only [boundaryZ]; split_ifs <;> rfl

lemma boundaryZ_fst_y (dt : ℝ) (p v : Vec3) : (boundaryZ dt p v).1.y = p.y := by
  simp only [boundaryZ]; split_ifs <;> rfl

lemma boundaryZ_fst_abs_z (dt : ℝ) (p v : Vec3) : |(boundaryZ dt p v).1.z| ≤ 500 := by
  simp only [boundaryZ]
  split_ifs with h1 h2
  · show |jsSign p.z * 500| ≤ 500
    rw [abs_mul]
    have hs := jsSign_abs_le_one p.z
    have h500 : |(500 : ℝ)| = 500 := by norm_num
    rw [h500]
    nlinarith [abs_nonneg (jsSign p.z)]
  · exact le_of_not_lt h2
  · have := le_of_not_lt h1
    calc |p.z| ≤ 500 * 0.95 := this
      _ ≤ 500 := by norm_num

lemma ceilingLimit_fst_x (dt : ℝ) (p v : Vec3) : (ceilingLimit dt p v).1.x = p.x := by
  simp only [ceilingLimit]; split_ifs <;> rfl

lemma ceilingLimit_fst_z (dt : ℝ) (p v : Vec3) : (ceilingLimit dt p v).1.z = p.z := by
  simp only [ceilingLimit]; split_ifs <;> rfl

lemma ceilingLimit_fst_y_le (dt : ℝ) (p v : Vec3) : (ceilingLimit dt p v).1.y ≤ 150 := by
  simp only [ceilingLimit]
  split_ifs with h1 h2
  · exact le_rfl
  · exact le_of_not_lt h2
  · -- the progressive branch was not entered, so `p.y ≤ 150 * 0.85`
    have hmax : max 0 ((p.y - 150 * 0.85) / (150 * 0.15)) = 0 := by
      have h0 : 0 ≤ max 0 ((p.y - 150 * 0.85) / (150 * 0.15)) := le_max_left _ _
      have h0' := le_of_not_lt h1
      linarith
    have hq : (p.y - 150 * 0.85) / (150 * 0.15) ≤ 0 := by
      have := le_max_right 0 ((p.y - 150 * 0.85) / (150 * 0.15))
      linarith
    rw [div_nonpos_iff] at hq
    rcases hq with ⟨ha, hb⟩ | ⟨ha, hb⟩
    · linarith
    · linarith

lemma ceilingLimit_fst_y_ge (dt : ℝ) (p v : Vec3) (h : 2.5 ≤ p.y) :
    2.5 ≤ (ceilingLimit dt p v).1.y := by
  simp only [ceilingLimit]
  split_ifs with h1 h2
  · norm_num
  · exact h
  · exact h

lemma enforceBounds_position (dt : ℝ) (p v : Vec3) :
    2.5 ≤ (enforceBounds dt p v).1.y ∧ (enforceBounds dt p v).1.y ≤ 150 ∧
      |(enforceBounds dt p v).1.x| ≤ 500 ∧ |(enforceBounds dt p v).1.z| ≤ 500 := by
  simp only [enforceBounds]
  refine ⟨?_, ceilingLimit_fst_y_le _ _ _, ?_, ?_⟩
  · apply ceilingLimit_fst_y_ge
    rw [boundaryZ_fst_y, boundaryX_fst_y]
    exact groundCollision_fst_y_ge p v
  · rw [ceilingLimit_fst_x, boundaryZ_fst_x]
    exact boundaryX_fst_abs_x _ _ _
  · rw [ceilingLimit_fst_z]
    exact boundaryZ_fst_abs_z _ _ _

lemma updateDronePhysics_position (physics : DronePhysics) (controls : Controls)
    (powerUps : PowerUps) (deltaTime : ℝ) :
    (updateDronePhysics physics controls powerUps deltaTime).position =
      (enforceBounds deltaTime (rawPosition physics controls powerUps deltaTime)
        (limitedVelocity physics controls powerUps deltaTime)).1 := rfl

lemma updateDronePhysics_velocity (physics : DronePhysics) (controls : Controls)
    (powerUps : PowerUps) (deltaTime : ℝ) :
    (updateDronePhysics physics controls powerUps deltaTime).velocity =
      (enforceBounds deltaTime (rawPosition physics controls powerUps deltaTime)
        (limitedVelocity physics controls powerUps deltaTime)).2 := rfl

lemma updateDronePhysics_rotation (physics : DronePhysics) (controls : Controls)
    (powerUps : PowerUps) (deltaTime : ℝ) :
    (updateDronePhysics physics controls powerUps deltaTime).rotation =
      newRotation physics controls deltaTime := rfl

lemma actualMaxSpeed_pos (ms : ℝ) (b : Bool) (h : 0 < ms) : 0 < actualMaxSpeed ms b := by
  unfold actualMaxSpeed
  split_ifs <;> nlinarith

lemma speedSquaredOf_scale (v : Vec3) (k : ℝ) :
    speedSquaredOf ⟨v.x * k, v.y * k, v.z * k⟩ = k ^ 2 * speedSquaredOf v := by
  show v.x * k * (v.x * k) + v.y * k * (v.y * k) + v.z * k * (v.z * k) =
    k ^ 2 * (v.x * v.x + v.y * v.y + v.z * v.z)
  ring

lemma sqrt_speedSquaredOf_scale (v : Vec3) (k : ℝ) :
    Real.sqrt (speedSquaredOf ⟨v.x * k, v.y * k, v.z * k⟩) =
      |k| * Real.sqrt (speedSquaredOf v) := by
  rw [speedSquaredOf_scale, Real.sqrt_mul (sq_nonneg k), Real.sqrt_sq_eq_abs]

lemma limitedVelocity_speed_le (physics : DronePhysics) (controls : Controls)
    (powerUps : PowerUps) (deltaTime : ℝ)
    (hle : Real.sqrt (speedSquaredOf (rawVelocity physics controls deltaTime)) ≤
      actualMaxSpeed physics.maxSpeed powerUps.speedBoost) :
    Real.sqrt (speedSquaredOf (limitedVelocity physics controls powerUps deltaTime)) ≤
      actualMaxSpeed physics.maxSpeed powerUps.speedBoost := by
  unfold limitedVelocity
  set nv := rawVelocity physics controls deltaTime with hnv
  set s := Real.sqrt (speedSquaredOf nv) with hs
  set ams := actualMaxSpeed physics.maxSpeed powerUps.speedBoost with hams
  by_cases hgt : s > ams * 0.8
  · rw [if_pos hgt]
    have hs_pos : 0 < s := by
      have h0 : 0 ≤ s := by rw [hs]; exact Real.sqrt_nonneg _
      nlinarith
    have hof : min 1.0 (ams / s) = 1 := by
      have h10 : (1.0 : ℝ) = 1 := by norm_num
      rw [h10, min_eq_left ((one_le_div hs_pos).mpr hle)]
    rw [hof, sqrt_speedSquaredOf_scale, ← hs]
    rw [show (0.95 + 0.05 * 1 : ℝ) = 1 by norm_num, abs_one, one_mul]
    exact hle
  · rw [if_neg hgt, ← hs]
    exact hle

lemma limitedVelocity_speed_over (physics : DronePhysics) (controls : Controls)
    (powerUps : PowerUps) (deltaTime : ℝ)
    (hcap : 0 < actualMaxSpeed physics.maxSpeed powerUps.speedBoost)
    (hgt : actualMaxSpeed physics.maxSpeed powerUps.speedBoost <
      Real.sqrt (speedSquaredOf (rawVelocity physics controls deltaTime))) :
    Real.sqrt (speedSquaredOf (limitedVelocity physics controls powerUps deltaTime)) =
      0.95 * Real.sqrt (speedSquaredOf (rawVelocity physics controls deltaTime)) +
        0.05 * actualMaxSpeed physics.maxSpeed powerUps.speedBoost := by
  unfold limitedVelocity
  set nv := rawVelocity physics controls deltaTime with hnv
  set s := Real.sqrt (speedSquaredOf nv) with hs
  set ams := actualMaxSpeed physics.maxSpeed powerUps.speedBoost with hams
  have hs_pos : 0 < s := lt_trans hcap hgt
  rw [if_pos (by nlinarith)]
  have hof : min 1.0 (ams / s) = ams / s := by
    have h10 : (1.0 : ℝ) = 1 := by norm_num
    rw [h10]
    apply min_eq_right
    rw [div_le_one hs_pos]
    linarith
  rw [hof, sqrt_speedSquaredOf_scale, ← hs]
  have hfac : 0 ≤ 0.95 + 0.05 * (ams / s) := by positivity
  rw [abs_of_nonneg hfac]
  field_simp

lemma newRotation_droneFast : newRotation droneFast zeroControls 0 = ⟨0, 0, 0⟩ := by
  simp only [newRotation]
  rw [effectiveRotation_of_lock_zero droneFast zeroControls rfl]
  norm_num [zeroControls, droneFast, createDronePhysics, newSteeringLock]

lemma forwardForce_droneFast : forwardForce droneFast zeroControls 0 = 0 := by
  unfold forwardForce
  rw [newRotation_droneFast]
  show (-Real.sin 0 * (1 + |Real.sin 0| * 0.3)) * droneFast.maxAcceleration * 1.8 = 0
  simp [Real.sin_zero]

lemma horizontalForce_droneFast : horizontalForce droneFast zeroControls 0 = 0 := by
  simp only [horizontalForce]
  rw [if_neg (by norm_num [newSteeringLock, zeroControls, droneFast, createDronePhysics]),
    newRotation_droneFast]
  show Real.sin (0 : ℝ) * droneFast.maxAcceleration * 1.1 = 0
  simp [Real.sin_zero]

lemma forces_droneFast : forces droneFast zeroControls 0 = ⟨0, -9.8, 0⟩ := by
  simp only [forces]
  rw [newRotation_droneFast, forwardForce_droneFast, horizontalForce_droneFast]
  show (⟨Real.sin (0 : ℝ) * 0 + 0,
    zeroControls.throttle ^ (1.15 : ℝ) * droneFast.maxAcceleration * 2.0 - droneFast.gravity,
    Real.cos (0 : ℝ) * 0⟩ : Vec3) = ⟨0, -9.8, 0⟩
  rw [show (zeroControls.throttle : ℝ) = 0 from rfl,
    Real.zero_rpow (by norm_num : (1.15 : ℝ) ≠ 0)]
  norm_num [droneFast, createDronePhysics]

lemma blendedAcceleration_droneFast :
    blendedAcceleration droneFast zeroControls 0 = ⟨0, -1.47, 0⟩ := by
  simp only [blendedAcceleration]
  rw [forces_droneFast]
  norm_num [droneFast, createDronePhysics]

lemma rawVelocity_droneFast : rawVelocity droneFast zeroControls 0 = ⟨1000, 0, 0⟩ := by
  simp only [rawVelocity]
  rw [blendedAcceleration_droneFast]
  have hdf : dragFactor droneFast.drag (speedSquaredOf droneFast.velocity) 0 = 1 := by
    unfold dragFactor
    norm_num
  rw [hdf]
  norm_num [droneFast, createDronePhysics]

lemma limitedVelocity_droneFast :
    limitedVelocity droneFast zeroControls ⟨true⟩ 0 = ⟨956.6, 0, 0⟩ := by
  simp only [limitedVelocity]
  rw [rawVelocity_droneFast]
  have hsq : speedSquaredOf ⟨(1000 : ℝ), 0, 0⟩ = 1000 ^ 2 := by
    show (1000 : ℝ) * 1000 + 0 * 0 + 0 * 0 = 1000 ^ 2
    norm_num
  have hams : actualMaxSpeed droneFast.maxSpeed (⟨true⟩ : PowerUps).speedBoost = 132 := by
    norm_num [actualMaxSpeed, droneFast, createDronePhysics]
  rw [hsq, Real.sqrt_sq (by norm_num), hams, if_pos (by norm_num)]
  have hmin : min (1.0 : ℝ) (132 / 1000) = 132 / 1000 := by
    apply min_eq_right
    norm_num
  rw [hmin]
  show (⟨(1000 : ℝ) * (0.95 + 0.05 * (132 / 1000)), (0 : ℝ) * (0.95 + 0.05 * (132 / 1000)),
    (0 : ℝ) * (0.95 + 0.05 * (132 / 1000))⟩ : Vec3) = ⟨956.6, 0, 0⟩
  norm_num

lemma rawPosition_droneFast : rawPosition droneFast zeroControls ⟨true⟩ 0 = ⟨0, 30, 0⟩ := by
  simp only [rawPosition]
  norm_num [droneFast, createDronePhysics]

lemma enforceBounds_droneFast :
    enforceBounds 0 ⟨0, 30, 0⟩ ⟨956.6, 0, 0⟩ = (⟨0, 30, 0⟩, ⟨956.6, 0, 0⟩) := by
  have hg : groundCollision ⟨0, 30, 0⟩ ⟨956.6, 0, 0⟩ = (⟨0, 30, 0⟩, ⟨956.6, 0, 0⟩) := by
    unfold groundCollision
    rw [if_neg (by norm_num)]
  have hx : boundaryX 0 ⟨0, 30, 0⟩ ⟨956.6, 0, 0⟩ = (⟨0, 30, 0⟩, ⟨956.6, 0, 0⟩) := by
    unfold boundaryX
    rw [if_neg (by norm_num)]
  have hz : boundaryZ 0 ⟨0, 30, 0⟩ ⟨956.6, 0, 0⟩ = (⟨0, 30, 0⟩, ⟨956.6, 0, 0⟩) := by
    unfold boundaryZ
    rw [if_neg (by norm_num)]
  have hc : ceilingLimit 0 ⟨0, 30, 0⟩ ⟨956.6, 0, 0⟩ = (⟨0, 30, 0⟩, ⟨956.6, 0, 0⟩) := by
    unfold ceilingLimit
    rw [if_neg ?hneg]
    case hneg =>
      show ¬max 0 (((30 : ℝ) - 150 * 0.85) / (150 * 0.15)) > 0
      rw [max_eq_left (by norm_num)]
      norm_num
  simp only [enforceBounds]
  rw [hg]
  show ceilingLimit 0 (boundaryZ 0 (boundaryX 0 ⟨0, 30, 0⟩ ⟨956.6, 0, 0⟩).1
    (boundaryX 0 ⟨0, 30, 0⟩ ⟨956.6, 0, 0⟩).2).1 (boundaryZ 0 (boundaryX 0 ⟨0, 30, 0⟩
    ⟨956.6, 0, 0⟩).1 (boundaryX 0 ⟨0, 30, 0⟩ ⟨956.6, 0, 0⟩).2).2 = _
  rw [hx]
  show ceilingLimit 0 (boundaryZ 0 ⟨0, 30, 0⟩ ⟨956.6, 0, 0⟩).1
    (boundaryZ 0 ⟨0, 30, 0⟩ ⟨956.6, 0, 0⟩).2 = _
  rw [hz]
  show ceilingLimit 0 ⟨0, 30, 0⟩ ⟨956.6, 0, 0⟩ = _
  exact hc

/-! ### Claim theorems -/

/-- C1: for every input state, control vector, power-up flags and deltaTime,
the state returned by `updateDronePhysics` satisfies
`2.5 ≤ position.y ≤ 150`, `|position.x| ≤ 500` and `|position.z| ≤ 500`,
regardless of the prior velocity (the bounds are enforced by the
ground/boundary/ceiling block on every step). -/
theorem C1_boundary_invariants (physics : DronePhysics) (controls : Controls)
    (powerUps : PowerUps) (deltaTime : ℝ) :
    2.5 ≤ (updateDronePhysics physics controls powerUps deltaTime).position.y ∧
    (updateDronePhysics physics controls powerUps deltaTime).position.y ≤ 150 ∧
    |(updateDronePhysics physics controls powerUps deltaTime).position.x| ≤ 500 ∧
    |(updateDronePhysics physics controls powerUps deltaTime).position.z| ≤ 500 := by
  rw [updateDronePhysics_position]
  exact enforceBounds_position deltaTime _ _

/-- C2: `checkCollision` returns true iff some obstacle in the list has
Euclidean distance to the drone strictly below
`droneRadius + obstacle.radius * 0.85`; in particular for a single obstacle
the result holds iff `dist(p, p2) < r + r2 * 0.85`. -/
theorem C2_collision_characterization :
    (∀ (p : Vec3) (r : ℝ) (obstacles : List Obstacle),
        checkCollision p r obstacles ↔
          ∃ o ∈ obstacles, dist3 p o.position < r + o.radius * 0.85) ∧
    (∀ (p p2 : Vec3) (r r2 : ℝ),
        checkCollision p r [⟨p2, r2⟩] ↔ dist3 p p2 < r + r2 * 0.85) := by
  refine ⟨checkCollision_iff, ?_⟩
  intro p p2 r r2
  simp [checkCollision]

/-- C3 (amended): when the effective steering lock is 0, the call leaves the
caller's state object unchanged; and the returned record is a complete
replacement whose fixed parameters are carried over from the input. -/
theorem C3_step_purity (physics : DronePhysics) (controls : Controls)
    (powerUps : PowerUps) (deltaTime : ℝ)
    (hlock : newSteeringLock physics controls = 0) :
    inputAfterUpdate physics controls = physics ∧
    (updateDronePhysics physics controls powerUps deltaTime).mass = physics.mass ∧
    (updateDronePhysics physics controls powerUps deltaTime).drag = physics.drag ∧
    (updateDronePhysics physics controls powerUps deltaTime).maxSpeed = physics.maxSpeed ∧
    (updateDronePhysics physics controls powerUps deltaTime).maxAcceleration =
      physics.maxAcceleration ∧
    (updateDronePhysics physics controls powerUps deltaTime).gravity = physics.gravity ∧
    (updateDronePhysics physics controls powerUps deltaTime).inertia = physics.inertia ∧
    (updateDronePhysics physics controls powerUps deltaTime).stabilization =
      physics.stabilization := by
  refine ⟨?_, rfl, rfl, rfl, rfl, rfl, rfl, rfl⟩
  unfold inputAfterUpdate
  rw [effectiveRotation_of_lock_zero _ _ hlock]

/-- Witness for C3 at the initial state with centered controls. -/
theorem C3_step_purity_witness :
    newSteeringLock createDronePhysics zeroControls = 0 ∧
    (inputAfterUpdate createDronePhysics zeroControls = createDronePhysics ∧
      (updateDronePhysics createDronePhysics zeroControls ⟨false⟩ 0).mass =
        createDronePhysics.mass ∧
      (updateDronePhysics createDronePhysics zeroControls ⟨false⟩ 0).drag =
        createDronePhysics.drag ∧
      (updateDronePhysics createDronePhysics zeroControls ⟨false⟩ 0).maxSpeed =
        createDronePhysics.maxSpeed ∧
      (updateDronePhysics createDronePhysics zeroControls ⟨false⟩ 0).maxAcceleration =
        createDronePhysics.maxAcceleration ∧
      (updateDronePhysics createDronePhysics zeroControls ⟨false⟩ 0).gravity =
        createDronePhysics.gravity ∧
      (updateDronePhysics createDronePhysics zeroControls ⟨false⟩ 0).inertia =
        createDronePhysics.inertia ∧
      (updateDronePhysics createDronePhysics zeroControls ⟨false⟩ 0).stabilization =
        createDronePhysics.stabilization) :=
  ⟨rfl, C3_step_purity createDronePhysics zeroControls ⟨false⟩ 0 rfl⟩

/-- C3 counterexample: with a steering-lock request the call mutates the
caller's state: its `rotation.z` becomes `1 * 0.18`, so the input is not
left unchanged. -/
theorem C3_step_purity_cx :
    inputAfterUpdate createDronePhysics lockControls ≠ createDronePhysics ∧
    (inputAfterUpdate createDronePhysics lockControls).rotation.z = 0.18 := by
  have hz : (inputAfterUpdate createDronePhysics lockControls).rotation.z = 0.18 := by
    unfold inputAfterUpdate effectiveRotation
    rw [if_pos (by norm_num [newSteeringLock, lockControls, createDronePhysics])]
    show newSteeringLock createDronePhysics lockControls * 0.18 = 0.18
    norm_num [newSteeringLock, lockControls, createDronePhysics]
  refine ⟨?_, hz⟩
  intro h
  rw [h] at hz
  norm_num [createDronePhysics] at hz

/-- C5 (amended): with an uncollected coin of radius 0.8, a drone radius of
0.8 and no magnet, `checkCoinCollection` returns `[]` when the distance is
at or above the combined pickup radius 2.96 (= 0.8·2.0 + 0.8·1.7) and
`[0]` once the distance drops below it. -/
theorem C5_pickup_threshold (dronePosition coinPosition : Vec3) :
    (checkCoinCollection dronePosition 0.8 [⟨coinPosition, 0.8, false⟩] false).1 =
      if dist3 dronePosition coinPosition < 2.96 then [0] else [] :=
  checkCoinCollection_single_ite dronePosition coinPosition

/-- C5 counterexample: at distance 2.5 — at or above the claimed ~2.1-2.2
pickup radius — the coin is nevertheless collected. -/
theorem C5_pickup_threshold_cx :
    dist3 ⟨0, 10, 0⟩ ⟨2.5, 10, 0⟩ = 2.5 ∧ (2.2 : ℝ) ≤ 2.5 ∧
    (checkCoinCollection ⟨0, 10, 0⟩ 0.8 [⟨⟨2.5, 10, 0⟩, 0.8, false⟩] false).1 = [0] := by
  refine ⟨dist3_cx25, by norm_num, ?_⟩
  rw [checkCoinCollection_single_ite, dist3_cx25, if_pos (by norm_num)]

/-- C6: with the magnet active and an uncollected coin at positive distance
within the magnet radius (12 times the base collection radius), a call to
`checkCoinCollection` moves the coin 0.6 of the way toward the drone, so
its distance becomes 0.4 of the old one — a strict decrease. -/
theorem C6_magnet_monotonic (dronePosition : Vec3) (droneRadius : ℝ)
    (coins : List Coin) (i : ℕ) (coin : Coin)
    (hget : coins[i]? = some coin) (hcol : coin.collected = false)
    (hpos : 0 < dist3 dronePosition coin.position)
    (hmag : dist3 dronePosition coin.position < droneRadius * 2.0 * 12) :
    ∃ c2, ((checkCoinCollection dronePosition droneRadius coins true).2)[i]? = some c2 ∧
      dist3 dronePosition c2.position = 0.4 * dist3 dronePosition coin.position ∧
      dist3 dronePosition c2.position < dist3 dronePosition coin.position := by
  have hsnd : ((checkCoinCollection dronePosition droneRadius coins true).2)[i]? =
      some ((coinStep dronePosition (droneRadius * 2.0) (droneRadius * 2.0 * 12)
        true coin).1) := by
    simp only [checkCoinCollection, checkCoinCollectionGo_snd, if_true, eq_self_iff_true]
    rw [List.getElem?_map, hget, Option.map_some']
  rw [coinStep_magnet_pull dronePosition (droneRadius * 2.0) (droneRadius * 2.0 * 12)
    coin hcol hmag] at hsnd
  have heq : dist3 dronePosition
      ({ coin with position :=
          ⟨coin.position.x + (dronePosition.x - coin.position.x) * 0.6,
           coin.position.y + (dronePosition.y - coin.position.y) * 0.6,
           coin.position.z + (dronePosition.z - coin.position.z) * 0.6⟩ } : Coin).position =
      0.4 * dist3 dronePosition coin.position :=
    dist3_pull dronePosition coin.position
  refine ⟨_, hsnd, heq, ?_⟩
  rw [heq]
  linarith

/-- Witness for C6: a coin 5 units away with a 19.2-unit magnet radius is
pulled to distance 2. -/
theorem C6_magnet_monotonic_witness :
    ([⟨⟨5, 0, 0⟩, 0.8, false⟩] : List Coin)[0]? = some ⟨⟨5, 0, 0⟩, 0.8, false⟩ ∧
    0 < dist3 ⟨0, 0, 0⟩ (⟨⟨5, 0, 0⟩, 0.8, false⟩ : Coin).position ∧
    dist3 ⟨0, 0, 0⟩ (⟨⟨5, 0, 0⟩, 0.8, false⟩ : Coin).position < 0.8 * 2.0 * 12 ∧
    (∃ c2, ((checkCoinCollection ⟨0, 0, 0⟩ 0.8 [⟨⟨5, 0, 0⟩, 0.8, false⟩] true).2)[0]? =
        some c2 ∧
      dist3 ⟨0, 0, 0⟩ c2.position =
        0.4 * dist3 ⟨0, 0, 0⟩ (⟨⟨5, 0, 0⟩, 0.8, false⟩ : Coin).position ∧
      dist3 ⟨0, 0, 0⟩ c2.position <
        dist3 ⟨0, 0, 0⟩ (⟨⟨5, 0, 0⟩, 0.8, false⟩ : Coin).position) := by
  have h5 : dist3 ⟨0, 0, 0⟩ (⟨⟨5, 0, 0⟩, 0.8, false⟩ : Coin).position = 5 :=
    dist3_zero_five
  exact ⟨rfl, by rw [h5]; norm_num, by rw [h5]; norm_num,
    C6_magnet_monotonic ⟨0, 0, 0⟩ 0.8 [⟨⟨5, 0, 0⟩, 0.8, false⟩] 0 ⟨⟨5, 0, 0⟩, 0.8, false⟩
      rfl rfl (by rw [h5]; norm_num) (by rw [h5]; norm_num)⟩

/-- C7: a coin whose `collected` flag is already true is never reported by
`checkCoinCollection`, and its record (position included) is returned
unchanged. -/
theorem C7_collected_excluded (dronePosition : Vec3) (droneRadius : ℝ)
    (coins : List Coin) (hasMagnet : Bool) (i : ℕ) (coin : Coin)
    (hget : coins[i]? = some coin) (hcol : coin.collected = true) :
    i ∉ (checkCoinCollection dronePosition droneRadius coins hasMagnet).1 ∧
    ((checkCoinCollection dronePosition droneRadius coins hasMagnet).2)[i]? =
      some coin := by
  constructor
  · intro hmem
    have hnm := checkCoinCollectionGo_collected_not_mem dronePosition
      (droneRadius * 2.0)
      (if hasMagnet then droneRadius * 2.0 * 12 else droneRadius * 2.0)
      hasMagnet coins 0 i coin hget hcol
    simp only [checkCoinCollection] at hmem
    exact hnm (by simpa using hmem)
  · simp only [checkCoinCollection, checkCoinCollectionGo_snd]
    rw [List.getElem?_map, hget, Option.map_some',
      coinStep_collected _ _ _ _ _ hcol]

/-- Witness for C7: a collected coin is skipped and returned unchanged. -/
theorem C7_collected_excluded_witness :
    ([⟨⟨0, 0, 0⟩, 1, true⟩] : List Coin)[0]? = some ⟨⟨0, 0, 0⟩, 1, true⟩ ∧
    (⟨⟨0, 0, 0⟩, 1, true⟩ : Coin).collected = true ∧
    (0 ∉ (checkCoinCollection ⟨1, 2, 3⟩ 2 [⟨⟨0, 0, 0⟩, 1, true⟩] true).1 ∧
      ((checkCoinCollection ⟨1, 2, 3⟩ 2 [⟨⟨0, 0, 0⟩, 1, true⟩] true).2)[0]? =
        some ⟨⟨0, 0, 0⟩, 1, true⟩) :=
  ⟨rfl, rfl, C7_collected_excluded ⟨1, 2, 3⟩ 2 [⟨⟨0, 0, 0⟩, 1, true⟩] true 0
    ⟨⟨0, 0, 0⟩, 1, true⟩ rfl rfl⟩

/-- C4 (amended): the progressive speed limiter leaves the post-drag speed
unchanged (in particular at or under the cap) whenever it is at most the
effective cap `maxSpeed * (2.2 if speedBoost else 1) > 0`; when the
post-drag speed exceeds the cap, the post-limit speed equals exactly
`0.95 * speed + 0.05 * cap`, so the excess over the cap contracts by the
factor 0.95 per step, but the cap itself is not enforced and can be
exceeded without bound. -/
theorem C4_progressive_limit (physics : DronePhysics) (controls : Controls)
    (powerUps : PowerUps) (deltaTime : ℝ)
    (hcap : 0 < actualMaxSpeed physics.maxSpeed powerUps.speedBoost) :
    (Real.sqrt (speedSquaredOf (rawVelocity physics controls deltaTime)) ≤
        actualMaxSpeed physics.maxSpeed powerUps.speedBoost →
      Real.sqrt (speedSquaredOf (limitedVelocity physics controls powerUps deltaTime)) ≤
        actualMaxSpeed physics.maxSpeed powerUps.speedBoost) ∧
    (actualMaxSpeed physics.maxSpeed powerUps.speedBoost <
        Real.sqrt (speedSquaredOf (rawVelocity physics controls deltaTime)) →
      Real.sqrt (speedSquaredOf (limitedVelocity physics controls powerUps deltaTime)) =
        0.95 * Real.sqrt (speedSquaredOf (rawVelocity physics controls deltaTime)) +
          0.05 * actualMaxSpeed physics.maxSpeed powerUps.speedBoost) :=
  ⟨limitedVelocity_speed_le physics controls powerUps deltaTime,
   limitedVelocity_speed_over physics controls powerUps deltaTime hcap⟩

/-- Witness for C4 at a concrete state. -/
theorem C4_progressive_limit_witness :
    0 < actualMaxSpeed droneFast.maxSpeed (⟨true⟩ : PowerUps).speedBoost ∧
    ((Real.sqrt (speedSquaredOf (rawVelocity droneFast zeroControls 0)) ≤
        actualMaxSpeed droneFast.maxSpeed (⟨true⟩ : PowerUps).speedBoost →
      Real.sqrt (speedSquaredOf (limitedVelocity droneFast zeroControls ⟨true⟩ 0)) ≤
        actualMaxSpeed droneFast.maxSpeed (⟨true⟩ : PowerUps).speedBoost) ∧
     (actualMaxSpeed droneFast.maxSpeed (⟨true⟩ : PowerUps).speedBoost <
        Real.sqrt (speedSquaredOf (rawVelocity droneFast zeroControls 0)) →
      Real.sqrt (speedSquaredOf (limitedVelocity droneFast zeroControls ⟨true⟩ 0)) =
        0.95 * Real.sqrt (speedSquaredOf (rawVelocity droneFast zeroControls 0)) +
          0.05 * actualMaxSpeed droneFast.maxSpeed (⟨true⟩ : PowerUps).speedBoost)) :=
  ⟨by norm_num [actualMaxSpeed, droneFast, createDronePhysics],
   C4_progressive_limit droneFast zeroControls ⟨true⟩ 0
     (by norm_num [actualMaxSpeed, droneFast, createDronePhysics])⟩

/-- C4 counterexample: from a state with velocity `(1000, 0, 0)` and speed
boost active, a single step with `deltaTime = 0` returns a velocity of
magnitude 956.6, exceeding the cap `maxSpeed * 2.2 = 132` by more than 800
— not by any single-step tolerance. -/
theorem C4_progressive_limit_cx :
    (updateDronePhysics droneFast zeroControls ⟨true⟩ 0).velocity = ⟨956.6, 0, 0⟩ ∧
    Real.sqrt (speedSquaredOf ⟨(956.6 : ℝ), 0, 0⟩) = 956.6 ∧
    actualMaxSpeed droneFast.maxSpeed true = 132 ∧
    (132 : ℝ) + 800 < 956.6 := by
  refine ⟨?_, ?_, ?_, by norm_num⟩
  · rw [updateDronePhysics_velocity, rawPosition_droneFast, limitedVelocity_droneFast,
      enforceBounds_droneFast]
  · have hsq : speedSquaredOf ⟨(956.6 : ℝ), 0, 0⟩ = 956.6 ^ 2 := by
      show (956.6 : ℝ) * 956.6 + 0 * 0 + 0 * 0 = 956.6 ^ 2
      norm_num
    rw [hsq, Real.sqrt_sq (by norm_num)]
  · norm_num [actualMaxSpeed, droneFast, createDronePhysics]

/-- C8 (amended): with the steering lock clear, each axis whose raw input
magnitude is below 0.1 decays multiplicatively per step — pitch and roll by
the factor `(1 - stabilization)`, yaw by the factor
`(1 - stabilization * 0.5)`. -/
theorem C8_stabilization (physics : DronePhysics) (controls : Controls)
    (powerUps : PowerUps) (deltaTime : ℝ)
    (hlock : newSteeringLock physics controls = 0) :
    (|controls.pitch| < 0.1 →
      (updateDronePhysics physics controls powerUps deltaTime).rotation.x =
        physics.rotation.x * (1 - physics.stabilization)) ∧
    (|controls.yaw| < 0.1 →
      (updateDronePhysics physics controls powerUps deltaTime).rotation.y =
        physics.rotation.y * (1 - physics.stabilization * 0.5)) ∧
    (|controls.roll| < 0.1 →
      (updateDronePhysics physics controls powerUps deltaTime).rotation.z =
        physics.rotation.z * (1 - physics.stabilization)) := by
  rw [updateDronePhysics_rotation]
  simp only [newRotation]
  rw [effectiveRotation_of_lock_zero physics controls hlock]
  refine ⟨?_, ?_, ?_⟩
  · intro hp
    show (if |controls.pitch| < 0.1 then physics.rotation.x * (1 - physics.stabilization)
      else _) = _
    rw [if_pos hp]
  · intro hy
    show (if newSteeringLock physics controls = 0 ∧ |controls.yaw| < 0.1 then
      physics.rotation.y * (1 - physics.stabilization * 0.5) else _) = _
    rw [if_pos ⟨hlock, hy⟩]
  · intro hr
    show (if |newSteeringLock physics controls| < 0.1 ∧ |controls.roll| < 0.1 then
      physics.rotation.z * (1 - physics.stabilization) else _) = _
    rw [if_pos ⟨by rw [hlock]; norm_num, hr⟩]

/-- Witness for C8 at a concrete state with yaw rotation 1. -/
theorem C8_stabilization_witness :
    newSteeringLock droneTilted zeroControls = 0 ∧
    |zeroControls.yaw| < 0.1 ∧
    (updateDronePhysics droneTilted zeroControls ⟨false⟩ 0).rotation.y =
      droneTilted.rotation.y * (1 - droneTilted.stabilization * 0.5) :=
  ⟨rfl, by norm_num [zeroControls],
   (C8_stabilization droneTilted zeroControls ⟨false⟩ 0 rfl).2.1
     (by norm_num [zeroControls])⟩

/-- C8 counterexample: with centered controls and yaw rotation 1 the yaw
axis decays to `1 * (1 - 0.03 * 0.5) = 0.985`, not to
`1 * (1 - 0.03) = 0.97` as the per-axis `(1 - stabilization)` claim would
require. -/
theorem C8_stabilization_cx :
    (updateDronePhysics droneTilted zeroControls ⟨false⟩ 0).rotation.y = 0.985 ∧
    (0.985 : ℝ) ≠ droneTilted.rotation.y * (1 - droneTilted.stabilization) := by
  constructor
  · rw [updateDronePhysics_rotation]
    simp only [newRotation]
    rw [effectiveRotation_of_lock_zero droneTilted zeroControls rfl]
    show (if newSteeringLock droneTilted zeroControls = 0 ∧ |zeroControls.yaw| < 0.1 then
      droneTilted.rotation.y * (1 - droneTilted.stabilization * 0.5) else _) = _
    rw [if_pos ⟨rfl, by norm_num [zeroControls]⟩]
    norm_num [droneTilted, createDronePhysics]
  · norm_num [droneTilted, createDronePhysics]

/-- C9: the drag factor of `updateDronePhysics` is floored at 0 and hence
never negative, and the speed-limiting division is guarded: it only occurs
when the post-drag speed exceeds 80% of the (positive) effective max speed,
in which case the divisor is strictly positive. -/
theorem C9_division_guards (physics : DronePhysics) (controls : Controls)
    (powerUps : PowerUps) (deltaTime sq : ℝ) (hms : 0 < physics.maxSpeed) :
    0 ≤ dragFactor physics.drag sq deltaTime ∧
    (actualMaxSpeed physics.maxSpeed powerUps.speedBoost * 0.8 <
        Real.sqrt (speedSquaredOf (rawVelocity physics controls deltaTime)) →
      0 < Real.sqrt (speedSquaredOf (rawVelocity physics controls deltaTime))) := by
  constructor
  · exact le_max_left _ _
  · intro h
    have hpos := actualMaxSpeed_pos physics.maxSpeed powerUps.speedBoost hms
    nlinarith

/-- Witness for C9 at the initial state. -/
theorem C9_division_guards_witness :
    0 < createDronePhysics.maxSpeed ∧
    (0 ≤ dragFactor createDronePhysics.drag 0 0 ∧
      (actualMaxSpeed createDronePhysics.maxSpeed (⟨false⟩ : PowerUps).speedBoost * 0.8 <
          Real.sqrt (speedSquaredOf (rawVelocity createDronePhysics zeroControls 0)) →
        0 < Real.sqrt (speedSquaredOf (rawVelocity createDronePhysics zeroControls 0)))) :=
  ⟨by norm_num [createDronePhysics],
   C9_division_guards createDronePhysics zeroControls ⟨false⟩ 0 0
     (by norm_num [createDronePhysics])⟩

/-- C10: the two copies of the spatial query engine embedded in the source
file are extensionally equal: the earlier `checkCollision` agrees with the
later one on all inputs, and the earlier `checkCoinCollection` returns the
same index list and performs the same coin-position updates as the later
one. -/
theorem C10_two_copies_equivalent :
    (∀ (p : Vec3) (r : ℝ) (obstacles : List Obstacle),
        checkCollisionEarly p r obstacles ↔ checkCollision p r obstacles) ∧
    (∀ (p : Vec3) (r : ℝ) (coins : List Coin) (hasMagnet : Bool),
        checkCoinCollectionEarly p r coins hasMagnet =
          checkCoinCollection p r coins hasMagnet) := by
  refine ⟨checkCollisionEarly_iff_checkCollision, ?_⟩
  intro p r coins hasMagnet
  simp only [checkCoinCollection, checkCoinCollectionEarly,
    checkCoinCollectionGoEarly_eq]

end
